import Mathlib

/-!
Shallow embedding of the audience-simulation engine:
`src/backend/services/simulation.service.ts` (per-pair reaction and batched
run), the simulation worker in the queue module, and the results-ranking
endpoint in the auth controller.

Oracle calls and `Math.random()` draws are modelled as explicit inputs:
an `OracleOutcome` (a parsed verdict, or a failure covering both a thrown
call and unparseable output) and a `Draws` record holding the uniform
values the four gate checks would consume, as rationals.
-/

/-- A persona row (schema fields read by the engine; the prompt-only fields
are carried as opaque strings). -/
structure Persona where
  id : String
  name : String
  title : String
  company : String
  industry : String
  ageRange : String
  bio : String
  interests : String
  painPoints : String
  contentPreferences : String
  socialBehavior : String
  deriving Repr, DecidableEq

/-- A generated-post row (fields read by the engine). -/
structure GeneratedPost where
  id : String
  platform : String
  content : String
  variationNumber : Nat
  deriving Repr, DecidableEq

/-- The engine's per-pair result record (`SimulationResult` interface). -/
structure SimulationResult where
  personaId : String
  postId : String
  liked : Bool
  shared : Bool
  commented : Bool
  commentText : Option String
  reasoning : String
  engagementScore : Int
  deriving Repr, DecidableEq

/-- The oracle's parsed JSON verdict (fields after `Boolean(...)` coercion;
`commentText` and `reasoning` may be absent from the JSON). -/
structure OracleVerdict where
  stoppedScrolling : Bool
  liked : Bool
  shared : Bool
  commented : Bool
  commentText : Option String
  reasoning : Option String
  deriving Repr, DecidableEq

/-- Outcome of one oracle call: a parsed verdict, or a failure (the call
threw, or its output failed to parse as JSON). -/
inductive OracleOutcome where
  | ok (v : OracleVerdict)
  | failure
  deriving Repr, DecidableEq

/-- The uniform random values the four gate checks of one pair would
consume (`Math.random()` results, in call order: stop, like, comment,
share). -/
structure Draws where
  r0 : ℚ
  r1 : ℚ
  r2 : ℚ
  r3 : ℚ
  deriving Repr, DecidableEq

/-- One row of the `PROBABILITY_GATES` table. -/
structure Gates where
  stopRate : ℚ
  likeRate : ℚ
  commentRate : ℚ
  shareRate : ℚ
  deriving Repr, DecidableEq

/-- The fixed probability-gate calibration table (`PROBABILITY_GATES`).
The source's decimal literals (0.30 etc.) are embedded as the exact
rationals they denote, written over the denominator 100. -/
def PROBABILITY_GATES : String → Option Gates := fun b =>
  if b = "lurker" then
    some ⟨mkRat 30 100, mkRat 50 100, mkRat 8 100, mkRat 2 100⟩
  else if b = "casual_engager" then
    some ⟨mkRat 50 100, mkRat 60 100, mkRat 18 100, mkRat 6 100⟩
  else if b = "active_commenter" then
    some ⟨mkRat 70 100, mkRat 75 100, mkRat 35 100, mkRat 12 100⟩
  else if b = "power_sharer" then
    some ⟨mkRat 85 100, mkRat 85 100, mkRat 45 100, mkRat 22 100⟩
  else none

/-- `PROBABILITY_GATES[b] || PROBABILITY_GATES.casual_engager`. -/
def gatesFor (b : String) : Gates :=
  (PROBABILITY_GATES b).getD ⟨mkRat 50 100, mkRat 60 100, mkRat 18 100, mkRat 6 100⟩

/-- JavaScript `o || d` on an optional string: `""`, like absence, falls
through to the default. -/
def jsOrStr (o : Option String) (d : String) : String :=
  match o with
  | none => d
  | some s => if s = "" then d else s

/-- JavaScript `o || null` on an optional string: `""` becomes null. -/
def jsStrOrNull (o : Option String) : Option String :=
  match o with
  | some s => if s = "" then none else some s
  | none => none

/-- The weighted score accumulation of `simulateReaction`
(`let score = 0; if (liked) score += 1; ...`). -/
def scoreCalc (liked commented shared : Bool) : Int :=
  let score : Int := 0
  let score := if liked then score + 1 else score
  let score := if commented then score + 3 else score
  let score := if shared then score + 5 else score
  score

/-- The success path of `simulateReaction`: the parsed verdict is pushed
through the probabilistic scroll gate and the three engagement gates. -/
def simulateReactionOk (persona : Persona) (post : GeneratedPost)
    (parsed : OracleVerdict) (d : Draws) : SimulationResult :=
  let gates := gatesFor persona.socialBehavior
  let llmStopped := parsed.stoppedScrolling
  let llmLiked := parsed.liked
  let llmCommented := parsed.commented
  let llmShared := parsed.shared
  let stopped := llmStopped && decide (d.r0 < gates.stopRate)
  let liked := stopped && llmLiked && decide (d.r1 < gates.likeRate)
  let commented := stopped && llmCommented && decide (d.r2 < gates.commentRate)
  let shared := stopped && llmShared && decide (d.r3 < gates.shareRate)
  let score := scoreCalc liked commented shared
  let reasoning := jsOrStr parsed.reasoning "Scrolled past without noticing"
  let reasoning :=
    if llmStopped && !stopped then
      "Glanced at it but kept scrolling — " ++ reasoning
    else reasoning
  { personaId := persona.id
    postId := post.id
    liked := liked
    shared := shared
    commented := commented
    commentText := if commented then jsStrOrNull parsed.commentText else none
    reasoning := reasoning
    engagementScore := score }

/-- The catch branch of `simulateReaction`: the maximally negative default
result. -/
def failedSimulationResult (persona : Persona) (post : GeneratedPost) :
    SimulationResult :=
  { personaId := persona.id
    postId := post.id
    liked := false
    shared := false
    commented := false
    commentText := none
    reasoning := "Simulation could not be completed"
    engagementScore := 0 }

/-- `simulateReaction`, with the oracle call's outcome and the random draws
made explicit. -/
def simulateReaction (persona : Persona) (post : GeneratedPost)
    (outcome : OracleOutcome) (d : Draws) : SimulationResult :=
  match outcome with
  | .ok v => simulateReactionOk persona post v d
  | .failure => failedSimulationResult persona post

/-- A persona used in concrete examples. -/
def examplePersona (behavior : String) : Persona :=
  { id := "persona-1", name := "Alex", title := "Engineer", company := "Acme"
    industry := "Tech", ageRange := "25-34", bio := "", interests := "[]"
    painPoints := "[]", contentPreferences := "", socialBehavior := behavior }

/-- A post used in concrete examples. -/
def examplePost : GeneratedPost :=
  { id := "post-1", platform := "linkedin", content := "hello"
    variationNumber := 1 }

lemma score_formula (l c s : Bool) :
    scoreCalc l c s = 1 * (if l then 1 else 0) + 3 * (if c then 1 else 0)
      + 5 * (if s then 1 else 0) := by
  cases l <;> cases c <;> cases s <;> rfl

/-- C1: `simulateReaction` computes its booleans by the two-stage gate
exactly: `stopped = oracle.stoppedScrolling && r0 < stopRate`, and each of
liked/commented/shared is its oracle field gated only on `stopped` and its
own draw against its own rate — so all three can hold at once. -/
theorem simulateReaction_two_stage_gate :
    (∀ (persona : Persona) (post : GeneratedPost) (v : OracleVerdict)
        (d : Draws),
      (simulateReactionOk persona post v d).liked
          = (v.stoppedScrolling
              && decide (d.r0 < (gatesFor persona.socialBehavior).stopRate)
              && v.liked
              && decide (d.r1 < (gatesFor persona.socialBehavior).likeRate))
      ∧ (simulateReactionOk persona post v d).commented
          = (v.stoppedScrolling
              && decide (d.r0 < (gatesFor persona.socialBehavior).stopRate)
              && v.commented
              && decide (d.r2 < (gatesFor persona.socialBehavior).commentRate))
      ∧ (simulateReactionOk persona post v d).shared
          = (v.stoppedScrolling
              && decide (d.r0 < (gatesFor persona.socialBehavior).stopRate)
              && v.shared
              && decide (d.r3 < (gatesFor persona.socialBehavior).shareRate)))
    ∧ (∃ (persona : Persona) (post : GeneratedPost) (v : OracleVerdict)
        (d : Draws),
      (simulateReactionOk persona post v d).liked = true
      ∧ (simulateReactionOk persona post v d).commented = true
      ∧ (simulateReactionOk persona post v d).shared = true) := by
  constructor
  · intro persona post v d
    refine ⟨rfl, rfl, rfl⟩
  · refine ⟨examplePersona "power_sharer", examplePost,
      ⟨true, true, true, true, none, none⟩, ⟨0, 0, 0, 0⟩, ?_, ?_, ?_⟩ <;> decide

/-- C6: if the oracle's `stoppedScrolling` is false then, whatever the
draws and the oracle's other fields, the result has liked, commented and
shared all false and engagement score 0 (scroll-gate dominance). -/
theorem scroll_gate_dominance (persona : Persona) (post : GeneratedPost)
    (v : OracleVerdict) (d : Draws) (h : v.stoppedScrolling = false) :
    (simulateReactionOk persona post v d).liked = false
    ∧ (simulateReactionOk persona post v d).commented = false
    ∧ (simulateReactionOk persona post v d).shared = false
    ∧ (simulateReactionOk persona post v d).engagementScore = 0 := by
  simp [simulateReactionOk, scoreCalc, h]

/-- Witness for C6: a concrete verdict with `stoppedScrolling = false` but
liked/commented/shared all claimed true still yields an all-false result. -/
theorem scroll_gate_dominance_witness :
    (OracleVerdict.mk false true true true none none).stoppedScrolling = false
    ∧ ((simulateReactionOk (examplePersona "lurker") examplePost
          (OracleVerdict.mk false true true true none none) ⟨0, 0, 0, 0⟩).liked = false
      ∧ (simulateReactionOk (examplePersona "lurker") examplePost
          (OracleVerdict.mk false true true true none none) ⟨0, 0, 0, 0⟩).commented = false
      ∧ (simulateReactionOk (examplePersona "lurker") examplePost
          (OracleVerdict.mk false true true true none none) ⟨0, 0, 0, 0⟩).shared = false
      ∧ (simulateReactionOk (examplePersona "lurker") examplePost
          (OracleVerdict.mk false true true true none none) ⟨0, 0, 0, 0⟩).engagementScore = 0) :=
  ⟨rfl, scroll_gate_dominance (examplePersona "lurker") examplePost
    (OracleVerdict.mk false true true true none none) ⟨0, 0, 0, 0⟩ rfl⟩

/-- C7: every result of `simulateReaction` (success or failure path) has
`engagementScore = 1*liked + 3*commented + 5*shared` with the booleans read
as 0/1. -/
theorem engagementScore_weighted (persona : Persona) (post : GeneratedPost)
    (outcome : OracleOutcome) (d : Draws) :
    (simulateReaction persona post outcome d).engagementScore
      = 1 * (if (simulateReaction persona post outcome d).liked then 1 else 0)
      + 3 * (if (simulateReaction persona post outcome d).commented then 1 else 0)
      + 5 * (if (simulateReaction persona post outcome d).shared then 1 else 0) := by
  cases outcome with
  | failure => rfl
  | ok v => exact score_formula _ _ _

/-- C8: in the calibration table, each of the four rates is monotonically
non-decreasing along lurker → casual_engager → active_commenter →
power_sharer, and within every behavior type the comment and share rates
are strictly below the like rate. -/
theorem probability_gates_calibration :
    ((gatesFor "lurker").stopRate ≤ (gatesFor "casual_engager").stopRate
      ∧ (gatesFor "casual_engager").stopRate ≤ (gatesFor "active_commenter").stopRate
      ∧ (gatesFor "active_commenter").stopRate ≤ (gatesFor "power_sharer").stopRate)
    ∧ ((gatesFor "lurker").likeRate ≤ (gatesFor "casual_engager").likeRate
      ∧ (gatesFor "casual_engager").likeRate ≤ (gatesFor "active_commenter").likeRate
      ∧ (gatesFor "active_commenter").likeRate ≤ (gatesFor "power_sharer").likeRate)
    ∧ ((gatesFor "lurker").commentRate ≤ (gatesFor "casual_engager").commentRate
      ∧ (gatesFor "casual_engager").commentRate ≤ (gatesFor "active_commenter").commentRate
      ∧ (gatesFor "active_commenter").commentRate ≤ (gatesFor "power_sharer").commentRate)
    ∧ ((gatesFor "lurker").shareRate ≤ (gatesFor "casual_engager").shareRate
      ∧ (gatesFor "casual_engager").shareRate ≤ (gatesFor "active_commenter").shareRate
      ∧ (gatesFor "active_commenter").shareRate ≤ (gatesFor "power_sharer").shareRate)
    ∧ ((gatesFor "lurker").commentRate < (gatesFor "lurker").likeRate
      ∧ (gatesFor "lurker").shareRate < (gatesFor "lurker").likeRate)
    ∧ ((gatesFor "casual_engager").commentRate < (gatesFor "casual_engager").likeRate
      ∧ (gatesFor "casual_engager").shareRate < (gatesFor "casual_engager").likeRate)
    ∧ ((gatesFor "active_commenter").commentRate < (gatesFor "active_commenter").likeRate
      ∧ (gatesFor "active_commenter").shareRate < (gatesFor "active_commenter").likeRate)
    ∧ ((gatesFor "power_sharer").commentRate < (gatesFor "power_sharer").likeRate
      ∧ (gatesFor "power_sharer").shareRate < (gatesFor "power_sharer").likeRate) := by
  decide

/-- JavaScript `s || d` for strings: the empty string falls through. -/
def jsOrNonempty (s : String) (d : String) : String :=
  if s = "" then d else s

/-- JavaScript `Math.round` on a (non-negative here) rational. -/
def jsRound (q : ℚ) : Int :=
  (q + mkRat 1 2).floor

/-- The running percentage in the progress counter:
`Math.round((completed / total) * 100)`. -/
def percentDone (completed total : Nat) : Int :=
  jsRound ((completed : ℚ) / (total : ℚ) * 100)

/-- The environment of a run: for each (persona, post) pair, the outcome of
its oracle call and the uniform draws its gate checks would consume. -/
def Oracle : Type :=
  Persona → GeneratedPost → OracleOutcome × Draws

/-- One pair's simulation under a given environment. -/
def simOne (oracle : Oracle) (pr : Persona × GeneratedPost) :
    SimulationResult :=
  simulateReaction pr.1 pr.2 (oracle pr.1 pr.2).1 (oracle pr.1 pr.2).2

/-- The cross product built by `runFullSimulation`'s nested `for` loops
(persona-major, post-minor). -/
def mkPairs (personaList : List Persona) (posts : List GeneratedPost) :
    List (Persona × GeneratedPost) :=
  personaList.flatMap (fun persona => posts.map (fun post => (persona, post)))

/-- The pre-batch progress message: deduplicated persona names of the
batch, each annotated with the matching persona's title. -/
def scrollingMessage (personaList : List Persona)
    (batch : List (Persona × GeneratedPost)) : String :=
  let personaNames := (batch.map (fun p => p.1.name)).eraseDups
  let personaDetails := String.intercalate ", "
    (personaNames.map (fun name =>
      match personaList.find? (fun pl => pl.name = name) with
      | some p => name ++ " (" ++ p.title ++ ")"
      | none => name))
  personaDetails ++ " scrolling through the feed..."

/-- The post-batch reaction messages: one summary line when everyone
scrolled past, otherwise one line per engaged result. -/
def reactionMessages (personaList : List Persona)
    (posts : List GeneratedPost) (batchResults : List SimulationResult) :
    List String :=
  let engaged := batchResults.filter (fun r => r.liked || r.commented || r.shared)
  let scrolledPast :=
    batchResults.filter (fun r => !r.liked && !r.commented && !r.shared)
  if scrolledPast.length > 0 ∧ engaged.length = 0 then
    ["All " ++ toString scrolledPast.length
      ++ " scrolled past — no engagement on these"]
  else if engaged.length > 0 then
    engaged.map (fun r =>
      let persona := personaList.find? (fun p => p.id = r.personaId)
      let post := posts.find? (fun p => p.id = r.postId)
      let actions := (if r.liked then ["liked"] else [])
        ++ (if r.commented then ["commented"] else [])
        ++ (if r.shared then ["shared"] else [])
      (match persona with
       | some p => jsOrNonempty p.name "Someone"
       | none => "Someone")
        ++ " " ++ String.intercalate " & " actions ++ " Variation "
        ++ (match post with
            | some p =>
              if p.variationNumber = 0 then "?" else toString p.variationNumber
            | none => "?"))
  else []

/-- The batch loop of `runFullSimulation` (`for (let i = 0; i <
pairs.length; i += BATCH_SIZE)` with `BATCH_SIZE = 8`), returning the
accumulated results and, separately, the progress messages emitted through
`onProgress`. -/
def simLoop (oracle : Oracle) (personaList : List Persona)
    (posts : List GeneratedPost) (pairs : List (Persona × GeneratedPost))
    (i : Nat) : List SimulationResult × List String :=
  if _h : i < pairs.length then
    let batch := (pairs.drop i).take 8
    let preMsg := scrollingMessage personaList batch
    let batchResults := batch.map (simOne oracle)
    let postMsgs := reactionMessages personaList posts batchResults
    let completed := min (i + 8) pairs.length
    let pctMsg := toString completed ++ "/" ++ toString pairs.length
      ++ " reactions simulated ("
      ++ toString (percentDone completed pairs.length) ++ "%)"
    let rest := simLoop oracle personaList posts pairs (i + 8)
    (batchResults ++ rest.1, (preMsg :: postMsgs ++ [pctMsg]) ++ rest.2)
  else ([], [])
termination_by pairs.length - i
decreasing_by omega

/-- `runFullSimulation`, with the oracle environment explicit; returns the
result list together with the progress messages emitted via `onProgress`. -/
def runFullSimulation (personaList : List Persona)
    (posts : List GeneratedPost) (oracle : Oracle) :
    List SimulationResult × List String :=
  let pairs := mkPairs personaList posts
  simLoop oracle personaList posts pairs 0

/-- Each `simulateReaction` performs exactly one oracle call, so a run's
oracle-call count is the number of submitted pairs. -/
def oracleCallCount (personaList : List Persona)
    (posts : List GeneratedPost) : Nat :=
  (mkPairs personaList posts).length

lemma simLoop_fst (oracle : Oracle) (personaList : List Persona)
    (posts : List GeneratedPost) (pairs : List (Persona × GeneratedPost)) :
    ∀ i, (simLoop oracle personaList posts pairs i).1
      = (pairs.drop i).map (simOne oracle) := by
  have H : ∀ n i, pairs.length - i ≤ n →
      (simLoop oracle personaList posts pairs i).1
        = (pairs.drop i).map (simOne oracle) := by
    intro n
    induction n with
    | zero =>
      intro i hle
      rw [simLoop]
      have h : ¬ i < pairs.length := by omega
      simp [h, List.drop_eq_nil_of_le (by omega : pairs.length ≤ i)]
    | succ n ih =>
      intro i hle
      rw [simLoop]
      by_cases h : i < pairs.length
      · simp only [h, dif_pos]
        rw [ih (i + 8) (by omega)]
        rw [← List.map_append]
        congr 1
        rw [← List.drop_drop]
        exact List.take_append_drop 8 (pairs.drop i)
      · simp [h, List.drop_eq_nil_of_le (by omega : pairs.length ≤ i)]
  exact fun i => H (pairs.length - i) i le_rfl

lemma runFullSimulation_fst (personaList : List Persona)
    (posts : List GeneratedPost) (oracle : Oracle) :
    (runFullSimulation personaList posts oracle).1
      = (mkPairs personaList posts).map (simOne oracle) := by
  simpa using simLoop_fst oracle personaList posts (mkPairs personaList posts) 0

lemma mkPairs_length (personaList : List Persona)
    (posts : List GeneratedPost) :
    (mkPairs personaList posts).length
      = personaList.length * posts.length := by
  induction personaList with
  | nil => simp [mkPairs]
  | cons p t ih =>
    simp only [mkPairs, List.flatMap_cons, List.length_append,
      List.length_map, List.length_cons] at *
    rw [ih]
    ring

lemma simOne_ids (oracle : Oracle) (pr : Persona × GeneratedPost) :
    (simOne oracle pr).personaId = pr.1.id
    ∧ (simOne oracle pr).postId = pr.2.id := by
  cases h : (oracle pr.1 pr.2).1 <;>
    simp [simOne, simulateReaction, h, simulateReactionOk,
      failedSimulationResult]

/-- An oracle environment used in concrete examples: every call fails. -/
def exampleFailingOracle : Oracle :=
  fun _ _ => (.failure, ⟨0, 0, 0, 0⟩)

/-- C5: an oracle failure (thrown call or unparseable output) yields the
maximally negative default result for that pair — all actions false, null
comment, reasoning "Simulation could not be completed", score 0 — and a
batched run still returns one result per submitted pair, whatever each
pair's oracle outcome. -/
theorem oracle_failure_negative_default :
    (∀ (persona : Persona) (post : GeneratedPost) (d : Draws),
      (simulateReaction persona post .failure d).liked = false
      ∧ (simulateReaction persona post .failure d).shared = false
      ∧ (simulateReaction persona post .failure d).commented = false
      ∧ (simulateReaction persona post .failure d).commentText = none
      ∧ (simulateReaction persona post .failure d).reasoning
          = "Simulation could not be completed"
      ∧ (simulateReaction persona post .failure d).engagementScore = 0
      ∧ (simulateReaction persona post .failure d).personaId = persona.id
      ∧ (simulateReaction persona post .failure d).postId = post.id)
    ∧ (∀ (personaList : List Persona) (posts : List GeneratedPost)
        (oracle : Oracle),
      (runFullSimulation personaList posts oracle).1.length
        = personaList.length * posts.length) := by
  constructor
  · intro persona post d
    exact ⟨rfl, rfl, rfl, rfl, rfl, rfl, rfl, rfl⟩
  · intro personaList posts oracle
    rw [runFullSimulation_fst, List.length_map, mkPairs_length]

/-- C9: a run returns exactly |personas| * |posts| results, and the i-th
result's (personaId, postId) is the i-th submitted pair's ids in
persona-major, post-minor cross-product order, for every oracle
environment. -/
theorem runFullSimulation_exactly_once (personaList : List Persona)
    (posts : List GeneratedPost) (oracle : Oracle) :
    (runFullSimulation personaList posts oracle).1.length
      = personaList.length * posts.length
    ∧ (runFullSimulation personaList posts oracle).1.map
        (fun r => (r.personaId, r.postId))
      = (mkPairs personaList posts).map (fun pr => (pr.1.id, pr.2.id)) := by
  constructor
  · rw [runFullSimulation_fst, List.length_map, mkPairs_length]
  · rw [runFullSimulation_fst, List.map_map]
    apply List.map_congr_left
    intro pr _
    have h := simOne_ids oracle pr
    simp [h.1, h.2]

/-- C10: on an empty persona list or an empty post list the engine returns
the empty result list, emits no progress messages, and makes zero oracle
calls. -/
theorem runFullSimulation_empty_inputs (personaList : List Persona)
    (posts : List GeneratedPost) (oracle : Oracle)
    (h : personaList = [] ∨ posts = []) :
    runFullSimulation personaList posts oracle = ([], [])
    ∧ oracleCallCount personaList posts = 0 := by
  have hpairs : mkPairs personaList posts = [] := by
    rcases h with h | h <;> subst h
    · rfl
    · induction personaList with
      | nil => rfl
      | cons p t ih =>
        simp only [mkPairs, List.flatMap_cons, List.map_nil,
          List.nil_append] at ih ⊢
        exact ih
  constructor
  · rw [runFullSimulation, hpairs, simLoop]
    simp
  · rw [oracleCallCount, hpairs]
    rfl

/-- Witness for C10: a run with one persona and no posts returns no
results, no messages and zero oracle calls. -/
theorem runFullSimulation_empty_inputs_witness :
    ([examplePersona "lurker"] = [] ∨ ([] : List GeneratedPost) = [])
    ∧ (runFullSimulation [examplePersona "lurker"] [] exampleFailingOracle
        = ([], [])
      ∧ oracleCallCount [examplePersona "lurker"] [] = 0) :=
  ⟨Or.inr rfl,
    runFullSimulation_empty_inputs [examplePersona "lurker"] []
      exampleFailingOracle (Or.inr rfl)⟩

/-- A persisted simulation row (the `post_simulations` table; what
`simulationRepository.createBulk` stores and `getByPostId` returns). -/
structure SimRow where
  postId : String
  personaId : String
  liked : Bool
  shared : Bool
  commented : Bool
  commentText : Option String
  reasoning : String
  engagementScore : Int
  deriving Repr, DecidableEq

/-- `simulationRepository.getByPostId` over a persisted row set. -/
def getByPostId (rows : List SimRow) (postId : String) : List SimRow :=
  rows.filter (fun s => s.postId = postId)

/-- The row written for a fresh result (`simsToCreate` mapping in the
simulation worker). -/
def toRow (r : SimulationResult) : SimRow :=
  { postId := r.postId
    personaId := r.personaId
    liked := r.liked
    shared := r.shared
    commented := r.commented
    commentText := r.commentText
    reasoning := r.reasoning
    engagementScore := r.engagementScore }

/-- The worker's split of the user's posts into
(`postsNeedingSimulation`, `postsAlreadySimulated`): a post with at least
one persisted row is already simulated. -/
def splitPosts (rows : List SimRow) (allPosts : List GeneratedPost) :
    List GeneratedPost × List GeneratedPost :=
  allPosts.foldl
    (fun acc post =>
      if (getByPostId rows post.id).length > 0 then
        (acc.1, acc.2 ++ [post])
      else (acc.1 ++ [post], acc.2))
    ([], [])

/-- The new rows the worker persists: the full run over
`postsNeedingSimulation` only, skipped entirely when that list is empty. -/
def workerNewSims (rows : List SimRow) (personaList : List Persona)
    (allPosts : List GeneratedPost) (oracle : Oracle) : List SimRow :=
  let posts := (splitPosts rows allPosts).1
  if posts.length > 0 then
    ((runFullSimulation personaList posts oracle).1).map toRow
  else []

/-- The oracle calls the worker spends: one per (persona, post) pair of the
run it launches, none when every post already has rows. -/
def workerOracleCalls (rows : List SimRow) (personaList : List Persona)
    (allPosts : List GeneratedPost) : Nat :=
  let posts := (splitPosts rows allPosts).1
  if posts.length > 0 then oracleCallCount personaList posts else 0

/-- The worker's final summary pass: all rows of all posts, gathered
post-by-post (`allSimResults`). -/
def allSimRows (rows : List SimRow) (allPosts : List GeneratedPost) :
    List SimRow :=
  allPosts.flatMap (fun post => getByPostId rows post.id)

/-- `Map.get(k)` on the insertion-ordered association list modelling the
worker's `postScores` map. -/
def mapGet (m : List (String × Int)) (k : String) : Option Int :=
  (m.find? (fun kv => kv.1 = k)).map (fun kv => kv.2)

/-- `Map.set(k, v)`: overwrite in place, or append preserving insertion
order. -/
def mapSet (m : List (String × Int)) (k : String) (v : Int) :
    List (String × Int) :=
  if m.any (fun kv => kv.1 = k) then
    m.map (fun kv => if kv.1 = k then (k, v) else kv)
  else m ++ [(k, v)]

/-- The worker's `postScores` map: per-post sum of `engagementScore` over
the summary rows, keyed by postId in first-occurrence order. -/
def computePostScores (results : List SimRow) : List (String × Int) :=
  results.foldl
    (fun m r => mapSet m r.postId ((mapGet m r.postId).getD 0 + r.engagementScore))
    []

/-- The worker's winning-post scan: strict `score > highestScore` with the
accumulator starting at `("", -1)`, so the first maximal entry in map
iteration order wins. -/
def findWinner (scores : List (String × Int)) : String × Int :=
  scores.foldl (fun best kv => if kv.2 > best.2 then kv else best) ("", -1)

/-- The id of the post the worker reports as the top performer. -/
def workerWinnerId (rows : List SimRow) (allPosts : List GeneratedPost) :
    String :=
  (findWinner (computePostScores (allSimRows rows allPosts))).1

/-- `scrolledPastCount` of a post's rows: results with all three of
liked/shared/commented false. -/
def scrolledPastCount (sims : List SimRow) : Nat :=
  (sims.filter (fun s => !s.liked && !s.shared && !s.commented)).length

/-- The engagement rate as the spec's section 4.5 words define it
(`(simulationCount - scrolledPastCount) / simulationCount`, with the rate 0
when `simulationCount` is 0): the spec-side definition, kept for comparison
with the code's comparator. -/
def engagementRateSpec (sims : List SimRow) : ℚ :=
  if sims.length = 0 then 0
  else mkRat ((sims.length : Int) - (scrolledPastCount sims : Int)) sims.length

/-- The per-post engagement summary row
(`simulationRepository.getEngagementByUserId` output). -/
structure PostEngagement where
  postId : String
  totalLikes : Int
  totalShares : Int
  totalComments : Int
  totalEngagementScore : Int
  simulationCount : Int
  deriving Repr, DecidableEq

/-- One element of `postResults` in `getSimulationResults`: a post with its
detailed rows and its engagement summary. -/
structure PostResult where
  post : GeneratedPost
  simulations : List SimRow
  engagement : PostEngagement
  deriving Repr, DecidableEq

/-- The comparator's engagement rate: `aTotal = a.simulations.length || 1`
and `(aTotal - aScrolled) / aTotal` — the guarded total appears in the
numerator as well as the denominator. -/
def engRateCode (sims : List SimRow) : ℚ :=
  let total : Nat := if sims.length = 0 then 1 else sims.length
  mkRat ((total : Int) - (scrolledPastCount sims : Int)) total

/-- The sort comparator of `getSimulationResults`: rate difference first,
weighted-score difference on equal rates (negative means `a` sorts before
`b`). -/
def compareResults (a b : PostResult) : ℚ :=
  let aEngRate := engRateCode a.simulations
  let bEngRate := engRateCode b.simulations
  if bEngRate ≠ aEngRate then bEngRate - aEngRate
  else ((b.engagement.totalEngagementScore
    - a.engagement.totalEngagementScore : Int) : ℚ)

/-- `postResults.sort(comparator)`: a stable sort placing `a` before `b`
when the comparator is non-positive. -/
def rankPosts (l : List PostResult) : List PostResult :=
  l.mergeSort (fun a b => decide (compareResults a b ≤ 0))

/-- Example post "P1" (one persisted row, everyone engaged). -/
def exPostA : GeneratedPost :=
  { id := "P1", platform := "linkedin", content := "a", variationNumber := 1 }

/-- Example post "P2" (two persisted rows, one engaged). -/
def exPostB : GeneratedPost :=
  { id := "P2", platform := "linkedin", content := "b", variationNumber := 2 }

/-- A persisted like on "P1" (score 1). -/
def exRowLike : SimRow :=
  { postId := "P1", personaId := "u1", liked := true, shared := false
    commented := false, commentText := none, reasoning := "r"
    engagementScore := 1 }

/-- A persisted share on "P2" (score 5). -/
def exRowShare : SimRow :=
  { postId := "P2", personaId := "u2", liked := false, shared := true
    commented := false, commentText := none, reasoning := "r"
    engagementScore := 5 }

/-- A persisted scroll-past on "P2" (score 0). -/
def exRowScroll : SimRow :=
  { postId := "P2", personaId := "u3", liked := false, shared := false
    commented := false, commentText := none, reasoning := "r"
    engagementScore := 0 }

/-- Example persisted row set: "P1" engages 1 of 1 (rate 1, total score 1),
"P2" engages 1 of 2 (rate 1/2, total score 5). -/
def exSummaryRows : List SimRow := [exRowLike, exRowShare, exRowScroll]

/-- The two example posts. -/
def exPosts : List GeneratedPost := [exPostA, exPostB]

lemma findWinner_max (scores : List (String × Int)) :
    (∀ kv ∈ scores, kv.2 ≤ (findWinner scores).2)
    ∧ (findWinner scores ∈ scores ∨ findWinner scores = ("", -1)) := by
  have H : ∀ (l : List (String × Int)) (acc : String × Int),
      acc.2 ≤ (l.foldl (fun best kv => if kv.2 > best.2 then kv else best) acc).2
      ∧ (∀ kv ∈ l,
          kv.2 ≤ (l.foldl (fun best kv => if kv.2 > best.2 then kv else best) acc).2)
      ∧ ((l.foldl (fun best kv => if kv.2 > best.2 then kv else best) acc) ∈ l
          ∨ (l.foldl (fun best kv => if kv.2 > best.2 then kv else best) acc) = acc) := by
    intro l
    induction l with
    | nil => intro acc; simp
    | cons x t ih =>
      intro acc
      simp only [List.foldl_cons]
      rcases ih (if x.2 > acc.2 then x else acc) with ⟨h1, h2, h3⟩
      have hstep : acc.2 ≤ (if x.2 > acc.2 then x else acc).2 := by
        by_cases h : x.2 > acc.2
        · simp only [if_pos h]; omega
        · simp only [if_neg h]; omega
      have hx : x.2 ≤ (if x.2 > acc.2 then x else acc).2 := by
        by_cases h : x.2 > acc.2
        · simp only [if_pos h]; omega
        · simp only [if_neg h]; omega
      refine ⟨le_trans hstep h1, ?_, ?_⟩
      · intro kv hkv
        rcases List.mem_cons.mp hkv with rfl | hm
        · exact le_trans hx h1
        · exact h2 kv hm
      · rcases h3 with hm | he
        · exact Or.inl (List.mem_cons_of_mem _ hm)
        · by_cases h : x.2 > acc.2
          · rw [he, if_pos h]
            exact Or.inl (List.mem_cons_self x t)
          · rw [he, if_neg h]
            exact Or.inr rfl
  have h := H scores ("", -1)
  exact ⟨h.2.1, h.2.2⟩

/-- C2 counterexample: with posts "P1" (1 result, engaged, rate 1, total
score 1) and "P2" (2 results, one engaged, rate 1/2, total score 5) the
worker reports "P2" as the winner although "P1" has the strictly higher
engagement rate — so the winner is not the highest-ranked post under the
section 4.5 order. -/
theorem worker_winner_counterexample :
    workerWinnerId exSummaryRows exPosts = "P2"
    ∧ engagementRateSpec (getByPostId exSummaryRows "P2")
        < engagementRateSpec (getByPostId exSummaryRows "P1") := by
  constructor
  · decide
  · decide

/-- C2 (amended): the worker's reported winner is the post with the
maximal summed `engagementScore` over all persisted results (all posts,
carried-over ones included); engagement rate is not consulted. The scan is
strict, so the first maximal entry in map-insertion order wins ties, and
on an empty result set the sentinel `("", -1)` is reported. -/
theorem worker_winner_is_max_total_score (rows : List SimRow)
    (allPosts : List GeneratedPost) :
    (∀ kv ∈ computePostScores (allSimRows rows allPosts),
      kv.2 ≤ (findWinner (computePostScores (allSimRows rows allPosts))).2)
    ∧ (findWinner (computePostScores (allSimRows rows allPosts))
          ∈ computePostScores (allSimRows rows allPosts)
        ∨ findWinner (computePostScores (allSimRows rows allPosts))
            = ("", -1)) :=
  findWinner_max (computePostScores (allSimRows rows allPosts))

/-- Witness for the amended C2: on the example rows, "P1"'s total score 1
is bounded by the reported winner's score. -/
theorem worker_winner_is_max_total_score_witness :
    ("P1", (1 : Int)) ∈ computePostScores (allSimRows exSummaryRows exPosts)
    ∧ (1 : Int)
        ≤ (findWinner (computePostScores (allSimRows exSummaryRows exPosts))).2 :=
  ⟨by decide,
    (worker_winner_is_max_total_score exSummaryRows exPosts).1
      ("P1", 1) (by decide)⟩

lemma foldl_partition (p : GeneratedPost → Prop) [DecidablePred p] :
    ∀ (l : List GeneratedPost) (acc : List GeneratedPost × List GeneratedPost),
      (l.foldl
        (fun acc post =>
          if p post then (acc.1, acc.2 ++ [post]) else (acc.1 ++ [post], acc.2))
        acc)
      = (acc.1 ++ l.filter (fun post => decide ¬ p post),
         acc.2 ++ l.filter (fun post => decide (p post))) := by
  intro l
  induction l with
  | nil => intro acc; simp
  | cons x t ih =>
    intro acc
    simp only [List.foldl_cons, List.filter_cons]
    by_cases h : p x
    · simp [h, ih]
    · simp [h, ih]

lemma splitPosts_fst (rows : List SimRow) (allPosts : List GeneratedPost) :
    (splitPosts rows allPosts).1
      = allPosts.filter (fun post => decide ((getByPostId rows post.id).length = 0)) := by
  rw [splitPosts, foldl_partition (fun post => (getByPostId rows post.id).length > 0)]
  simp only [List.nil_append]
  apply List.filter_congr
  intro post _
  simp [Nat.pos_iff_ne_zero]

lemma mem_mkPairs_snd (personaList : List Persona)
    (posts : List GeneratedPost) (pr : Persona × GeneratedPost)
    (h : pr ∈ mkPairs personaList posts) : pr.2 ∈ posts := by
  rcases List.mem_flatMap.mp h with ⟨p, _, hm⟩
  rcases List.mem_map.mp hm with ⟨post, hpost, rfl⟩
  exact hpost

lemma workerNewSims_post_mem (rows : List SimRow)
    (personaList : List Persona) (allPosts : List GeneratedPost)
    (oracle : Oracle) :
    ∀ s ∈ workerNewSims rows personaList allPosts oracle,
      ∃ post ∈ (splitPosts rows allPosts).1, s.postId = post.id := by
  intro s hs
  rw [workerNewSims] at hs
  by_cases h : ((splitPosts rows allPosts).1).length > 0
  · rw [if_pos h] at hs
    rcases List.mem_map.mp hs with ⟨r, hr, rfl⟩
    rw [runFullSimulation_fst] at hr
    rcases List.mem_map.mp hr with ⟨pr, hpr, rfl⟩
    refine ⟨pr.2, mem_mkPairs_snd _ _ _ hpr, ?_⟩
    show (toRow (simOne oracle pr)).postId = pr.2.id
    rw [toRow]
    exact (simOne_ids oracle pr).2
  · rw [if_neg h] at hs
    cases hs

lemma getByPostId_ne_nil (rows : List SimRow) (postId : String)
    (r : SimRow) (hr : r ∈ rows) (hid : r.postId = postId) :
    (getByPostId rows postId).length ≠ 0 := by
  have hm : r ∈ getByPostId rows postId :=
    List.mem_filter.mpr ⟨hr, by simp [hid]⟩
  intro hlen
  rw [List.length_eq_zero] at hlen
  rw [hlen] at hm
  cases hm

/-- C3: a (persona, post) pair with a persisted row is never simulated —
its post is excluded from `postsNeedingSimulation` and no fresh row with
its postId is created — and when every pair already has a persisted row
the worker spends zero oracle calls and creates zero new rows. -/
theorem skip_already_simulated (rows : List SimRow)
    (personaList : List Persona) (allPosts : List GeneratedPost)
    (oracle : Oracle) :
    (∀ (persona : Persona) (post : GeneratedPost),
      (∃ r ∈ rows, r.personaId = persona.id ∧ r.postId = post.id) →
      post ∉ (splitPosts rows allPosts).1
      ∧ ∀ s ∈ workerNewSims rows personaList allPosts oracle,
          s.postId ≠ post.id)
    ∧ ((∀ persona ∈ personaList, ∀ post ∈ allPosts,
          ∃ r ∈ rows, r.personaId = persona.id ∧ r.postId = post.id) →
        workerOracleCalls rows personaList allPosts = 0
        ∧ workerNewSims rows personaList allPosts oracle = []) := by
  constructor
  · intro persona post hex
    rcases hex with ⟨r, hr, _, hpid⟩
    have hne : (getByPostId rows post.id).length ≠ 0 :=
      getByPostId_ne_nil rows post.id r hr hpid
    constructor
    · intro hmem
      rw [splitPosts_fst] at hmem
      have hz := (List.mem_filter.mp hmem).2
      simp at hz
      exact hne (by simp [hz])
    · intro s hs heq
      rcases workerNewSims_post_mem rows personaList allPosts oracle s hs
        with ⟨post', hpost', hsid⟩
      rw [splitPosts_fst] at hpost'
      have hz := (List.mem_filter.mp hpost').2
      simp at hz
      rw [heq] at hsid
      rw [← hsid] at hz
      exact hne (by simp [hz])
  · intro hall
    cases personaList with
    | nil =>
      constructor
      · rw [workerOracleCalls]
        split
        · rw [oracleCallCount]; rfl
        · rfl
      · rw [workerNewSims]
        split
        · rw [runFullSimulation_fst]; rfl
        · rfl
    | cons p rest =>
      have hneed : (splitPosts rows allPosts).1 = [] := by
        rw [splitPosts_fst, List.filter_eq_nil_iff]
        intro post hpost
        rcases hall p (List.mem_cons_self p rest) post hpost
          with ⟨r, hr, _, hpid⟩
        simpa using getByPostId_ne_nil rows post.id r hr hpid
      constructor
      · rw [workerOracleCalls, hneed]
        rfl
      · rw [workerNewSims, hneed]
        rfl

/-- A persona matching the example row on "P1". -/
def exPersonaU1 : Persona :=
  { id := "u1", name := "Uma", title := "Analyst", company := "Acme"
    industry := "Tech", ageRange := "25-34", bio := "", interests := "[]"
    painPoints := "[]", contentPreferences := ""
    socialBehavior := "casual_engager" }

/-- Witness for C3: one persona, one post, and a persisted row for that
exact pair — the worker spends no oracle call, creates no row, and the
post is excluded from the pending list. -/
theorem skip_already_simulated_witness :
    exPostA ∉ (splitPosts [exRowLike] [exPostA]).1
    ∧ workerOracleCalls [exRowLike] [exPersonaU1] [exPostA] = 0
    ∧ workerNewSims [exRowLike] [exPersonaU1] [exPostA]
        exampleFailingOracle = [] :=
  ⟨((skip_already_simulated [exRowLike] [exPersonaU1] [exPostA]
        exampleFailingOracle).1 exPersonaU1 exPostA (by decide)).1,
    (skip_already_simulated [exRowLike] [exPersonaU1] [exPostA]
        exampleFailingOracle).2 (by decide)⟩

lemma compareResults_le_zero (a b : PostResult) :
    compareResults a b ≤ 0 ↔
      (engRateCode b.simulations < engRateCode a.simulations
        ∨ (engRateCode b.simulations = engRateCode a.simulations
            ∧ b.engagement.totalEngagementScore
                ≤ a.engagement.totalEngagementScore)) := by
  simp only [compareResults]
  by_cases h : engRateCode b.simulations = engRateCode a.simulations
  · rw [if_neg (by simp [h]), Int.cast_nonpos, sub_nonpos, h]
    simp [lt_irrefl]
  · rw [if_pos h, sub_nonpos]
    constructor
    · intro hle
      exact Or.inl (lt_of_le_of_ne hle h)
    · rintro (hlt | ⟨heq, _⟩)
      · exact le_of_lt hlt
      · exact absurd heq h

lemma compareResults_lt_zero (a b : PostResult) :
    compareResults a b < 0 ↔
      (engRateCode b.simulations < engRateCode a.simulations
        ∨ (engRateCode b.simulations = engRateCode a.simulations
            ∧ b.engagement.totalEngagementScore
                < a.engagement.totalEngagementScore)) := by
  simp only [compareResults]
  by_cases h : engRateCode b.simulations = engRateCode a.simulations
  · rw [if_neg (by simp [h]), Int.cast_lt_zero, sub_neg, h]
    simp [lt_irrefl]
  · rw [if_pos h, sub_neg]
    constructor
    · intro hlt
      exact Or.inl hlt
    · rintro (hlt | ⟨heq, _⟩)
      · exact hlt
      · exact absurd heq h

lemma compareLe_trans (a b c : PostResult) (hab : compareResults a b ≤ 0)
    (hbc : compareResults b c ≤ 0) : compareResults a c ≤ 0 := by
  rw [compareResults_le_zero] at hab hbc ⊢
  rcases hab with h1 | ⟨h1, h2⟩ <;> rcases hbc with h3 | ⟨h3, h4⟩
  · exact Or.inl (lt_trans h3 h1)
  · exact Or.inl (by rw [h3]; exact h1)
  · exact Or.inl (by rw [← h1]; exact h3)
  · exact Or.inr ⟨by rw [h3, h1], le_trans h4 h2⟩

lemma compareLe_total (a b : PostResult) :
    compareResults a b ≤ 0 ∨ compareResults b a ≤ 0 := by
  rw [compareResults_le_zero, compareResults_le_zero]
  rcases lt_trichotomy (engRateCode b.simulations) (engRateCode a.simulations)
    with h | h | h
  · exact Or.inl (Or.inl h)
  · rcases le_total b.engagement.totalEngagementScore
      a.engagement.totalEngagementScore with hs | hs
    · exact Or.inl (Or.inr ⟨h, hs⟩)
    · exact Or.inr (Or.inr ⟨h.symm, hs⟩)
  · exact Or.inr (Or.inl h)

/-- A third example post, carrying no simulation rows. -/
def exPostC : GeneratedPost :=
  { id := "P3", platform := "linkedin", content := "c", variationNumber := 3 }

/-- A `postResults` entry with zero simulations. -/
def exEmptyPR : PostResult :=
  { post := exPostC, simulations := []
    engagement := { postId := "P3", totalLikes := 0, totalShares := 0
                    totalComments := 0, totalEngagementScore := 0
                    simulationCount := 0 } }

/-- A `postResults` entry with two simulations, one engaged (rate 1/2,
total score 5). -/
def exEngagedPR : PostResult :=
  { post := exPostB, simulations := [exRowShare, exRowScroll]
    engagement := { postId := "P2", totalLikes := 0, totalShares := 1
                    totalComments := 0, totalEngagementScore := 5
                    simulationCount := 2 } }

/-- C4 counterexample: the comparator sorts a zero-simulation post (claimed
rate 0) strictly before a post with engagement rate 1/2, because the code
computes the empty post's rate as (1-0)/1 = 1, not 0. -/
theorem rank_zero_sims_counterexample :
    compareResults exEmptyPR exEngagedPR < 0
    ∧ engagementRateSpec exEmptyPR.simulations
        < engagementRateSpec exEngagedPR.simulations := by
  constructor
  · have ha : engRateCode exEmptyPR.simulations = 1 := by decide
    have hb : engRateCode exEngagedPR.simulations = mkRat 1 2 := by decide
    simp only [compareResults, ha, hb]
    rw [if_pos (by decide : (mkRat 1 2 : ℚ) ≠ 1)]
    norm_num [Rat.mkRat_eq_div]
  · decide

/-- C4 (amended): the sort orders posts descending by the comparator's
engagement rate — equal to (count - scrolled)/count when count > 0 but
equal to 1 (not 0) when count = 0 — with ties broken by descending
totalEngagementScore; the output is a permutation of the input pairwise
ordered that way. -/
theorem rank_by_code_rate_and_score (l : List PostResult)
    (a b : PostResult) :
    (a.simulations.length = 0 → engRateCode a.simulations = 1)
    ∧ (a.simulations.length ≠ 0 →
        engRateCode a.simulations
          = mkRat ((a.simulations.length : Int)
              - (scrolledPastCount a.simulations : Int)) a.simulations.length)
    ∧ (compareResults a b < 0 ↔
        (engRateCode b.simulations < engRateCode a.simulations
          ∨ (engRateCode b.simulations = engRateCode a.simulations
              ∧ b.engagement.totalEngagementScore
                  < a.engagement.totalEngagementScore)))
    ∧ (rankPosts l).Perm l
    ∧ List.Pairwise
        (fun x y =>
          engRateCode y.simulations < engRateCode x.simulations
          ∨ (engRateCode y.simulations = engRateCode x.simulations
              ∧ y.engagement.totalEngagementScore
                  ≤ x.engagement.totalEngagementScore))
        (rankPosts l) := by
  refine ⟨?_, ?_, compareResults_lt_zero a b, List.mergeSort_perm l _, ?_⟩
  · intro h
    rw [List.length_eq_zero] at h
    rw [h]
    decide
  · intro h
    simp [engRateCode, h]
  · have hp := @List.sorted_mergeSort PostResult
      (fun x y => decide (compareResults x y ≤ 0))
      (fun x y z h1 h2 =>
        decide_eq_true
          (compareLe_trans x y z (of_decide_eq_true h1) (of_decide_eq_true h2)))
      (fun x y => by
        rcases compareLe_total x y with h | h <;> simp [h])
      l
    exact hp.imp (fun h => (compareResults_le_zero _ _).mp (of_decide_eq_true h))

/-- Witness for the amended C4: a zero-simulation entry's code rate is 1,
the engaged entry's rate is (2-1)/2, and sorting a concrete two-element
list permutes it. -/
theorem rank_by_code_rate_and_score_witness :
    engRateCode exEmptyPR.simulations = 1
    ∧ engRateCode exEngagedPR.simulations
        = mkRat ((exEngagedPR.simulations.length : Int)
            - (scrolledPastCount exEngagedPR.simulations : Int))
            exEngagedPR.simulations.length
    ∧ (rankPosts [exEngagedPR, exEmptyPR]).Perm [exEngagedPR, exEmptyPR] :=
  ⟨(rank_by_code_rate_and_score [exEngagedPR, exEmptyPR] exEmptyPR
      exEngagedPR).1 rfl,
   (rank_by_code_rate_and_score [exEngagedPR, exEmptyPR] exEngagedPR
      exEmptyPR).2.1 (by decide),
   (rank_by_code_rate_and_score [exEngagedPR, exEmptyPR] exEmptyPR
      exEngagedPR).2.2.2.1⟩
